import Mathlib

/-!
# Verification of the dbModule data-access layer

A shallow embedding of `src/dbModule/main.go`: a minimal data-access layer
that opens a SQLite connection, loads SQL text from a YAML catalog, creates
two tables, inserts sample rows and runs flat/joined selects, printing the
results.

The SQL driver is abstracted as a record of oracles (`Database`): each driver
call (`Exec`, `Prepare`, statement execution with bound arguments, `Query`)
is a function whose result the environment chooses.  Row cursors are modelled
as the list of per-row scan outcomes followed by the cursor's terminal
condition (clean end of results, or an iteration error that `rows.Err()`
would report).  Go's `defer rows.Close()` is modelled by a release flag that
is set on every exit path of the scanning loop, including the error path and
panic-driven unwinding.
-/

set_option autoImplicit false

namespace DbModule

/-- Errors are carried as opaque messages, as the Go layer does: it never
inspects an error, only propagates it. -/
abbrev Err := String

/-- A value bound positionally to a prepared statement
(`statement.Exec(args...)`). -/
inductive SqlValue where
  | s (v : String)
  | i (v : Int)
  deriving DecidableEq, Repr

/-- Outcome of scanning one delivered row (`rows.Scan(...)`): success,
a scan error, or a panic that unwinds the caller. -/
inductive ScanRes (α : Type) where
  | ok (a : α)
  | err (e : Err)
  | panicked
  deriving DecidableEq, Repr

/-- Map the payload of a successful scan. -/
def ScanRes.map {α β : Type} (f : α → β) : ScanRes α → ScanRes β
  | .ok a => .ok (f a)
  | .err e => .err e
  | .panicked => .panicked

/-- A result-row cursor as returned by `db.Query`: the scan outcome of each
row `rows.Next()` delivers, followed by the terminal condition of the
iteration — `none` for a clean end of results, `some e` when iteration
stopped because of a cursor error (the error `rows.Err()` would report). -/
structure Cursor (α : Type) where
  rows : List (ScanRes α)
  iterErr : Option Err
  deriving DecidableEq, Repr

/-- The cursor of a well-behaved result set: every row scans cleanly and
iteration ends normally. -/
def Cursor.ofList {α : Type} (l : List α) : Cursor α :=
  ⟨l.map ScanRes.ok, none⟩

/-- Outcome of a Go function call: normal return with a value, normal return
with an error, or a panic unwinding through the function. -/
inductive Outcome (α : Type) where
  | ok (a : α)
  | err (e : Err)
  | panicked
  deriving DecidableEq, Repr

/-- `User` (main.go lines 14-21): id, name, lastname, password, email,
phone.  Go `int` is modelled as `Int`. -/
structure User where
  ID : Int
  Name : String
  Lastname : String
  Password : String
  Email : String
  Phone : String
  deriving DecidableEq, Repr

/-- `Restaurant` (main.go lines 24-31): id, name, type, keys, averagePrice,
userId.  The Go field `Type` is written `RType` because `Type` is reserved
in Lean. -/
structure Restaurant where
  ID : Int
  Name : String
  RType : String
  Keys : String
  AveragePrice : Int
  UserID : Int
  deriving DecidableEq, Repr

/-- The five columns scanned by `SelectRestaurants` (main.go line 139):
(id, name, type, keys, averagePrice).  The stored userId column is not part
of this projection because the `rows.Scan` call passes no destination
for it. -/
structure RRow where
  id : Int
  name : String
  rtype : String
  keys : String
  averagePrice : Int
  deriving DecidableEq, Repr

/-- The anonymous joined-row struct of `SelectJoin` (main.go lines 148-156):
(userId, userName, userLastname, restaurantId, restaurantName, type,
averagePrice). -/
structure JoinRow where
  UserID : Int
  UserName : String
  UserLastname : String
  RestaurantID : Int
  RestaurantName : String
  RType : String
  AveragePrice : Int
  deriving DecidableEq, Repr

/-- `Queries` (main.go lines 39-49): the nine named SQL texts of the
catalog. -/
structure Queries where
  DropUser : String
  DropRestaurants : String
  CreateUser : String
  CreateRestaurants : String
  InsertUser : String
  InsertRestaurant : String
  SelectUsers : String
  SelectRestaurants : String
  SelectJoin : String
  deriving DecidableEq, Repr

/-- The content handed to `LoadQueries`: the catalog file is missing (the
`ioutil.ReadFile` error path), unreadable as YAML (the `yaml.Unmarshal`
error path), or parsed into a key/value mapping. -/
inductive FileRes where
  | missing
  | unparseable
  | parsed (entries : List (String × String))
  deriving DecidableEq, Repr

/-- Modelled from the spec: `yaml.Unmarshal` of a parsed mapping into a
string field — the field tagged `k` receives the file's value for key `k`,
and a missing key leaves the field at its zero value, the empty string
(§4.1: "No defaults; a missing key yields an empty string"). -/
def yamlField (entries : List (String × String)) (k : String) : String :=
  (entries.lookup k).getD ""

/-- `LoadQueries` (main.go lines 61-70): read the file, unmarshal into
`Queries`; either failure is returned to the caller. -/
def LoadQueries (file : FileRes) : Except Err Queries :=
  match file with
  | .missing => .error "read error: no such file"
  | .unparseable => .error "yaml: unmarshal error"
  | .parsed m => .ok
      { DropUser := yamlField m "drop_user"
        DropRestaurants := yamlField m "drop_restaurants"
        CreateUser := yamlField m "create_user"
        CreateRestaurants := yamlField m "create_restaurants"
        InsertUser := yamlField m "insert_user"
        InsertRestaurant := yamlField m "insert_restaurant"
        SelectUsers := yamlField m "select_users"
        SelectRestaurants := yamlField m "select_restaurants"
        SelectJoin := yamlField m "select_join" }

/-- The driver surface of `Database` (the embedded `*sql.DB`): each method
the Go code calls, as an oracle chosen by the environment.  The three
`Query` call sites are split by their row shape. -/
structure Database where
  exec : String → Except Err Unit
  prepare : String → Except Err Unit
  execArgs : String → List SqlValue → Except Err Unit
  qUsers : String → Except Err (Cursor User)
  qRestaurants : String → Except Err (Cursor RRow)
  qJoin : String → Except Err (Cursor JoinRow)

/-- A driver call recorded in the execution trace. -/
inductive DbOp where
  | execOp (sql : String)
  | prepareOp (sql : String)
  | execArgsOp (sql : String) (args : List SqlValue)
  | queryOp (sql : String)
  deriving DecidableEq, Repr

/-- The `for _, statement := range statements` loop of `Initialize`
(main.go lines 81-85): execute each statement in order, returning on the
first error.  The first component records the statements actually passed
to `db.Exec`. -/
def execList (exec : String → Except Err Unit) : List String → List String × Option Err
  | [] => ([], none)
  | s :: rest =>
    match exec s with
    | .error e => ([s], some e)
    | .ok _ =>
      let r := execList exec rest
      (s :: r.1, r.2)

/-- `Initialize` (main.go lines 73-87): executes drop-user,
drop-restaurants, create-user, create-restaurants in that order, aborting
on the first failure. -/
def Database.Initialize (db : Database) (queries : Queries) : List String × Option Err :=
  execList db.exec
    [queries.DropUser, queries.DropRestaurants, queries.CreateUser, queries.CreateRestaurants]

/-- The arguments `InsertUser` binds positionally (main.go line 95):
(name, lastname, password, email, phone).  The id is not bound. -/
def userBindArgs (user : User) : List SqlValue :=
  [.s user.Name, .s user.Lastname, .s user.Password, .s user.Email, .s user.Phone]

/-- `InsertUser` (main.go lines 90-97): prepare the query, then execute it
with the user's fields bound positionally.  The second component records
the driver calls made. -/
def Database.InsertUser (db : Database) (user : User) (query : String) :
    Except Err Unit × List DbOp :=
  match db.prepare query with
  | .error e => (.error e, [.prepareOp query])
  | .ok _ =>
    (db.execArgs query (userBindArgs user),
     [.prepareOp query, .execArgsOp query (userBindArgs user)])

/-- The arguments `InsertRestaurant` binds positionally (main.go line 105):
(name, type, keys, averagePrice, userId). -/
def restaurantBindArgs (r : Restaurant) : List SqlValue :=
  [.s r.Name, .s r.RType, .s r.Keys, .i r.AveragePrice, .i r.UserID]

/-- `InsertRestaurant` (main.go lines 100-107): prepare then execute with
the restaurant's fields bound positionally. -/
def Database.InsertRestaurant (db : Database) (r : Restaurant) (query : String) :
    Except Err Unit × List DbOp :=
  match db.prepare query with
  | .error e => (.error e, [.prepareOp query])
  | .ok _ =>
    (db.execArgs query (restaurantBindArgs r),
     [.prepareOp query, .execArgsOp query (restaurantBindArgs r)])

/-- The `for rows.Next() { ... rows.Scan ... append }` loop shared by the
three selects: accumulate scanned records in order; the first scan error
returns it immediately (discarding the accumulation), and a scan panic
unwinds. -/
def scanAll {α : Type} : List (ScanRes α) → Outcome (List α)
  | [] => .ok []
  | .ok a :: rest =>
    match scanAll rest with
    | .ok l => .ok (a :: l)
    | .err e => .err e
    | .panicked => .panicked
  | .err e :: _ => .err e
  | .panicked :: _ => .panicked

/-- Result of one select call: the function's outcome, whether the row
cursor opened by the query was released (`defer rows.Close()`), and the
driver calls made. -/
structure SelectResult (α : Type) where
  outcome : Outcome (List α)
  closed : Bool
  calls : List DbOp
  deriving DecidableEq, Repr

/-- `SelectUsers` (main.go lines 110-126): run the query; on query error
return it (no cursor was opened).  Otherwise `defer rows.Close()` is
registered, so the cursor is released on every exit path of the scanning
loop.  Each row is scanned into all six `User` fields.  The cursor's
terminal condition `iterErr` is never consulted. -/
def Database.SelectUsers (db : Database) (query : String) : SelectResult User :=
  match db.qUsers query with
  | .error e => ⟨.err e, false, [.queryOp query]⟩
  | .ok c => ⟨scanAll c.rows, true, [.queryOp query]⟩

/-- The record built for each restaurant row (main.go lines 138-139):
`var restaurant Restaurant` starts at the zero value, the scan fills
(id, name, type, keys, averagePrice), and `UserID` keeps its zero value 0
because it is not a scan destination. -/
def RRow.toRestaurant (r : RRow) : Restaurant :=
  { ID := r.id, Name := r.name, RType := r.rtype, Keys := r.keys
    AveragePrice := r.averagePrice, UserID := 0 }

/-- `SelectRestaurants` (main.go lines 129-145): like `SelectUsers`, with
rows scanned into five of the six `Restaurant` fields. -/
def Database.SelectRestaurants (db : Database) (query : String) : SelectResult Restaurant :=
  match db.qRestaurants query with
  | .error e => ⟨.err e, false, [.queryOp query]⟩
  | .ok c => ⟨scanAll (c.rows.map (ScanRes.map RRow.toRestaurant)), true, [.queryOp query]⟩

/-- `SelectJoin` (main.go lines 148-196): like `SelectUsers`, with rows
scanned into the seven fields of the joined-row struct. -/
def Database.SelectJoin (db : Database) (query : String) : SelectResult JoinRow :=
  match db.qJoin query with
  | .error e => ⟨.err e, false, [.queryOp query]⟩
  | .ok c => ⟨scanAll c.rows, true, [.queryOp query]⟩

/-! ## The entry orchestration (`main`, main.go lines 198-250) -/

/-- The eight steps of `main`, in program order. -/
inductive Step where
  | openConn
  | loadCatalog
  | initSchema
  | insertUser
  | insertRestaurant
  | selectUsers
  | selectRestaurants
  | selectJoin
  deriving DecidableEq, Repr

/-- `fmt.Printf("User: %d %s %s\n", u.ID, u.Name, u.Lastname)`
(main.go line 232). -/
def printfUser (u : User) : String :=
  "User: " ++ toString u.ID ++ " " ++ u.Name ++ " " ++ u.Lastname ++ "\n"

/-- `fmt.Printf("Restaurant: %d %s %s\n", r.ID, r.Name, r.Type)`
(main.go line 238). -/
def printfRestaurant (r : Restaurant) : String :=
  "Restaurant: " ++ toString r.ID ++ " " ++ r.Name ++ " " ++ r.RType ++ "\n"

/-- The joined-row `fmt.Printf` (main.go lines 245-248): seven fields in
scan order, the line terminated by a newline. -/
def printfJoin (j : JoinRow) : String :=
  "User ID: " ++ toString j.UserID ++ " | Name: " ++ j.UserName ++ " " ++ j.UserLastname ++
    " | Restaurant ID: " ++ toString j.RestaurantID ++ " | Restaurant Name: " ++
    j.RestaurantName ++ " | Type: " ++ j.RType ++ " | Average Price: " ++
    toString j.AveragePrice ++ "\n"

/-- A `for _, x := range xs { fmt.Printf(...) }` loop: the concatenation of
one formatted chunk per record, in order. -/
def printLoop {α : Type} (fmtOne : α → String) (xs : List α) : String :=
  String.join (xs.map fmtOne)

/-- The sample user of main.go line 216.  The struct literal omits `ID`,
which therefore holds the Go zero value 0. -/
def sampleUser : User :=
  { ID := 0, Name := "lorem", Lastname := "lorem", Password := "lorem"
    Email := "lorem@example.com", Phone := "+88888888888" }

/-- The sample restaurant of main.go line 222. -/
def sampleRestaurant : Restaurant :=
  { ID := 0, Name := "ipsum", RType := "ipsum", Keys := "ipsum"
    AveragePrice := 2, UserID := 1 }

/-- What one run of `main` did: the steps that started executing, the step
at which the process terminated abnormally (via `log.Fatalf` or an
uncaught panic) if any, everything written to standard output, and every
driver call issued against the store. -/
structure MainResult where
  steps : List Step
  fatalAt : Option Step
  output : String
  dbOps : List DbOp
  deriving Repr

/-- The environment of one run: the result of `sql.Open` and the content of
the catalog file. -/
structure MainEnv where
  openRes : Except Err Database
  file : FileRes

/-- The nil slice a select's discarded error leaves behind
(`users, _ := ...`): on success the returned records, otherwise the empty
list the range-loop then iterates over. -/
def sliceOf {α : Type} : Outcome (List α) → List α
  | .ok l => l
  | _ => []

/-- Steps 6-8 of `main` (main.go lines 229-249): each select's error is
discarded (`users, _ := ...`), its print loop runs over the (possibly nil)
slice, and execution continues; only a panic during scanning terminates
the run at that step.  Returns the steps, abnormal termination, output and
driver calls these three steps contribute. -/
def selectsPhase (db : Database) (queries : Queries) : MainResult :=
  let su := db.SelectUsers queries.SelectUsers
  if su.outcome = .panicked then
    ⟨[.selectUsers], some .selectUsers, "", su.calls⟩
  else
    let out1 := printLoop printfUser (sliceOf su.outcome)
    let sr := db.SelectRestaurants queries.SelectRestaurants
    if sr.outcome = .panicked then
      ⟨[.selectUsers, .selectRestaurants], some .selectRestaurants, out1, su.calls ++ sr.calls⟩
    else
      let out2 := out1 ++ printLoop printfRestaurant (sliceOf sr.outcome)
      let sj := db.SelectJoin queries.SelectJoin
      if sj.outcome = .panicked then
        ⟨[.selectUsers, .selectRestaurants, .selectJoin], some .selectJoin, out2,
          su.calls ++ sr.calls ++ sj.calls⟩
      else
        ⟨[.selectUsers, .selectRestaurants, .selectJoin], none,
          out2 ++ printLoop printfJoin (sliceOf sj.outcome),
          su.calls ++ sr.calls ++ sj.calls⟩

/-- `main` (main.go lines 198-250).  The first five steps call
`log.Fatalf` on error, aborting the run; the three select steps are
`selectsPhase`. -/
def mainRun (env : MainEnv) : MainResult :=
  match env.openRes with
  | .error _ => ⟨[.openConn], some .openConn, "", []⟩
  | .ok db =>
    match LoadQueries env.file with
    | .error _ => ⟨[.openConn, .loadCatalog], some .loadCatalog, "", []⟩
    | .ok queries =>
      let init := db.Initialize queries
      let initOps := init.1.map DbOp.execOp
      match init.2 with
      | some _ => ⟨[.openConn, .loadCatalog, .initSchema], some .initSchema, "", initOps⟩
      | none =>
        let iu := db.InsertUser sampleUser queries.InsertUser
        match iu.1 with
        | .error _ =>
          ⟨[.openConn, .loadCatalog, .initSchema, .insertUser], some .insertUser, "",
            initOps ++ iu.2⟩
        | .ok _ =>
          let ir := db.InsertRestaurant sampleRestaurant queries.InsertRestaurant
          match ir.1 with
          | .error _ =>
            ⟨[.openConn, .loadCatalog, .initSchema, .insertUser, .insertRestaurant],
              some .insertRestaurant, "", initOps ++ iu.2 ++ ir.2⟩
          | .ok _ =>
            let sp := selectsPhase db queries
            ⟨[.openConn, .loadCatalog, .initSchema, .insertUser, .insertRestaurant] ++ sp.steps,
              sp.fatalAt, sp.output, initOps ++ iu.2 ++ ir.2 ++ sp.dbOps⟩

/-- The list of all eight steps in program order. -/
def allSteps : List Step :=
  [.openConn, .loadCatalog, .initSchema, .insertUser, .insertRestaurant,
   .selectUsers, .selectRestaurants, .selectJoin]

/-! ## Spec-side definitions

These follow the words of the spec (§4.4, §6), to be compared with the
definitions embedded from the source. -/

/-- The user fields printed per record, in the relative order §4.4 gives
for users: id before name before lastname. -/
def specUserFields (u : User) : List String :=
  [toString u.ID, u.Name, u.Lastname]

/-- One user record's line, per §6: a single line whose fields appear in
§4.4 order. -/
def specUserLine (u : User) : String :=
  "User: " ++ String.intercalate " " (specUserFields u)

/-- The restaurant fields printed per record, in the relative order §4.4
gives for restaurants: id before name before type. -/
def specRestaurantFields (r : Restaurant) : List String :=
  [toString r.ID, r.Name, r.RType]

/-- One restaurant record's line, per §6. -/
def specRestaurantLine (r : Restaurant) : String :=
  "Restaurant: " ++ String.intercalate " " (specRestaurantFields r)

/-- The joined-row fields printed per record, labelled, in the §4.4 order
(userId, userName+userLastname, restaurantId, restaurantName, type,
averagePrice). -/
def specJoinFields (j : JoinRow) : List String :=
  ["User ID: " ++ toString j.UserID,
   "Name: " ++ j.UserName ++ " " ++ j.UserLastname,
   "Restaurant ID: " ++ toString j.RestaurantID,
   "Restaurant Name: " ++ j.RestaurantName,
   "Type: " ++ j.RType,
   "Average Price: " ++ toString j.AveragePrice]

/-- One joined-row record's line, per §6. -/
def specJoinLine (j : JoinRow) : String :=
  String.intercalate " | " (specJoinFields j)

/-- Modelled from the spec: the driver-level behaviour of executing the SQL
text of a missing catalog entry — the empty SQL string is rejected with a
syntax error at the point of use (§3: "missing entry yields an empty SQL
string, a driver-level syntax error").  Non-empty statements succeed in
this model. -/
def specExec (sql : String) : Except Err Unit :=
  if sql = "" then .error "SQL syntax error: empty statement" else .ok ()

/-! ## A store model for the round-trip scenario

The configured SQL and the store executing it are external to the source
(`config/queries.yaml` and SQLite); they are modelled from the spec's §8
scenario. -/

/-- Modelled from the spec: the user table of the store, with the identity
counter the store uses to assign ids ("identity assigned by the store"). -/
structure Store where
  users : List User
  nextUserId : Int
  deriving DecidableEq, Repr

/-- Modelled from the spec: a freshly initialized schema — the user table
empty, identity starting at 1. -/
def Store.empty : Store := ⟨[], 1⟩

/-- Modelled from the spec: the store executing the configured insert-user
statement `INSERT INTO user(name,lastname,password,email,phone)
VALUES(?,?,?,?,?)` with positionally bound arguments.  The store assigns
the id; the row is appended to the table. -/
def Store.execInsertUser (st : Store) (args : List SqlValue) : Except Err Store :=
  match args with
  | [.s name, .s lastname, .s password, .s email, .s phone] =>
    .ok { users := st.users ++
            [{ ID := st.nextUserId, Name := name, Lastname := lastname
               Password := password, Email := email, Phone := phone }]
          nextUserId := st.nextUserId + 1 }
  | _ => .error "bind mismatch"

/-- Modelled from the spec: the driver backed by a store state — prepare
succeeds, executing the insert-user statement succeeds exactly when the
bound arguments fit the configured statement, and the select-users query
returns the user table's rows in order. -/
def Store.driver (st : Store) : Database :=
  { exec := fun _ => .ok ()
    prepare := fun _ => .ok ()
    execArgs := fun _ args => (st.execInsertUser args).map fun _ => ()
    qUsers := fun _ => .ok (Cursor.ofList st.users)
    qRestaurants := fun _ => .ok (Cursor.ofList [])
    qJoin := fun _ => .ok (Cursor.ofList []) }

/-! ## Concrete drivers used to evaluate the theorems -/

/-- A driver on which every call succeeds with empty result sets. -/
def dbAllOk : Database :=
  { exec := fun _ => .ok ()
    prepare := fun _ => .ok ()
    execArgs := fun _ _ => .ok ()
    qUsers := fun _ => .ok (Cursor.ofList [])
    qRestaurants := fun _ => .ok (Cursor.ofList [])
    qJoin := fun _ => .ok (Cursor.ofList []) }

/-- A sample selected user row. -/
def u0 : User := ⟨1, "lorem", "lorem", "lorem", "lorem@example.com", "+88888888888"⟩

/-- A sample restaurant row as scanned (five columns). -/
def r0 : RRow := ⟨7, "ipsum", "bistro", "k", 5⟩

/-- A sample joined row. -/
def j0 : JoinRow := ⟨1, "lorem", "lorem", 7, "ipsum", "bistro", 5⟩

/-- A driver whose selects each deliver one good row followed by a row
whose scan fails. -/
def dbScanErr : Database :=
  { dbAllOk with
    qUsers := fun _ => .ok ⟨[ScanRes.ok u0, ScanRes.err "scan fail"], none⟩
    qRestaurants := fun _ => .ok ⟨[ScanRes.ok r0, ScanRes.err "scan fail"], none⟩
    qJoin := fun _ => .ok ⟨[ScanRes.ok j0, ScanRes.err "scan fail"], none⟩ }

/-- A driver whose selects each deliver one good row and then stop because
of a cursor iteration error. -/
def dbIterErr : Database :=
  { dbAllOk with
    qUsers := fun _ => .ok ⟨[ScanRes.ok u0], some "iteration fail"⟩
    qRestaurants := fun _ => .ok ⟨[ScanRes.ok r0], some "iteration fail"⟩
    qJoin := fun _ => .ok ⟨[ScanRes.ok j0], some "iteration fail"⟩ }

/-- A catalog with distinct recognizable statements. -/
def qCat : Queries :=
  ⟨"DROP TABLE user", "DROP TABLE restaurants", "CREATE TABLE user",
   "CREATE TABLE restaurants", "INSERT user", "INSERT restaurant",
   "SELECT users", "SELECT restaurants", "SELECT join"⟩

/-- A driver on which exactly the drop-restaurants statement fails. -/
def dbDropRestaurantsFails : Database :=
  { dbAllOk with
    exec := fun s => if s = "DROP TABLE restaurants" then .error "boom" else .ok () }

/-! ## Lemmas about the scanning loop -/

theorem scanAll_map_ok {α : Type} (l : List α) : scanAll (l.map ScanRes.ok) = Outcome.ok l := by
  induction l with
  | nil => rfl
  | cons a t ih => simp [scanAll, ih]

theorem scanAll_first_err {α : Type} (pre : List α) (e : Err) (rest : List (ScanRes α)) :
    scanAll (pre.map ScanRes.ok ++ ScanRes.err e :: rest) = Outcome.err e := by
  induction pre with
  | nil => rfl
  | cons a t ih => simp [scanAll, ih]

theorem scanAll_ok_inv {α : Type} :
    ∀ (l : List (ScanRes α)) (xs : List α), scanAll l = Outcome.ok xs → l = xs.map ScanRes.ok := by
  intro l
  induction l with
  | nil =>
    intro xs h
    simp only [scanAll] at h
    cases h
    rfl
  | cons hd t ih =>
    intro xs h
    cases hd with
    | ok a =>
      cases hs : scanAll t with
      | ok l' =>
        simp only [scanAll, hs] at h
        cases h
        simp [ih l' hs]
      | err e =>
        simp only [scanAll, hs] at h
        exact Outcome.noConfusion h
      | panicked =>
        simp only [scanAll, hs] at h
        exact Outcome.noConfusion h
    | err e =>
      simp only [scanAll] at h
      exact Outcome.noConfusion h
    | panicked =>
      simp only [scanAll] at h
      exact Outcome.noConfusion h

theorem scanres_map_eq_ok {α β : Type} (f : α → β) (sr : ScanRes α) (b : β)
    (h : ScanRes.map f sr = ScanRes.ok b) : ∃ a, sr = ScanRes.ok a ∧ f a = b := by
  cases sr with
  | ok a => exact ⟨a, rfl, by simpa [ScanRes.map] using h⟩
  | err e => simp [ScanRes.map] at h
  | panicked => simp [ScanRes.map] at h

/-! ## Claim theorems -/

/-- Claim C3: for every successful call to `SelectRestaurants`, every
returned record has `UserID` equal to the zero value 0, since the scan
reads only (id, name, type, keys, averagePrice) and never populates
`UserID`. -/
theorem selectRestaurants_userId_zero (db : Database) (q : String) (rs : List Restaurant)
    (h : (db.SelectRestaurants q).outcome = Outcome.ok rs) :
    ∀ r ∈ rs, r.UserID = 0 := by
  intro r hr
  unfold Database.SelectRestaurants at h
  cases hq : db.qRestaurants q with
  | error e => rw [hq] at h; exact Outcome.noConfusion h
  | ok c =>
    rw [hq] at h
    simp only at h
    have hinv := scanAll_ok_inv _ _ h
    have hmem : ScanRes.ok r ∈ c.rows.map (ScanRes.map RRow.toRestaurant) := by
      rw [hinv]
      exact List.mem_map_of_mem ScanRes.ok hr
    rcases List.mem_map.mp hmem with ⟨sr, _, hsr⟩
    rcases scanres_map_eq_ok _ _ _ hsr with ⟨a, _, ha⟩
    rw [← ha]
    rfl

/-- Evaluates `selectRestaurants_userId_zero` on a driver returning one
concrete restaurant row. -/
theorem selectRestaurants_userId_zero_witness :
    (Database.SelectRestaurants { dbAllOk with
        qRestaurants := fun _ => .ok (Cursor.ofList [r0]) } "q").outcome =
      Outcome.ok [RRow.toRestaurant r0] ∧
    (RRow.toRestaurant r0).UserID = 0 := by
  constructor
  · rfl
  · exact selectRestaurants_userId_zero
      { dbAllOk with qRestaurants := fun _ => .ok (Cursor.ofList [r0]) } "q"
      [RRow.toRestaurant r0] rfl (RRow.toRestaurant r0) (by simp)

/-- Claim C4: `Initialize` executes exactly drop-user, drop-restaurants,
create-user, create-restaurants in that fixed order; the first failing
statement's error is returned and no remaining statement executes, the
statements already executed staying in the trace. -/
theorem initialize_fixed_order (db : Database) (q : Queries) :
    (db.exec q.DropUser = .ok () → db.exec q.DropRestaurants = .ok () →
      db.exec q.CreateUser = .ok () → db.exec q.CreateRestaurants = .ok () →
      db.Initialize q = ([q.DropUser, q.DropRestaurants, q.CreateUser, q.CreateRestaurants], none)) ∧
    (∀ e, db.exec q.DropUser = .error e →
      db.Initialize q = ([q.DropUser], some e)) ∧
    (∀ e, db.exec q.DropUser = .ok () → db.exec q.DropRestaurants = .error e →
      db.Initialize q = ([q.DropUser, q.DropRestaurants], some e)) ∧
    (∀ e, db.exec q.DropUser = .ok () → db.exec q.DropRestaurants = .ok () →
      db.exec q.CreateUser = .error e →
      db.Initialize q = ([q.DropUser, q.DropRestaurants, q.CreateUser], some e)) ∧
    (∀ e, db.exec q.DropUser = .ok () → db.exec q.DropRestaurants = .ok () →
      db.exec q.CreateUser = .ok () → db.exec q.CreateRestaurants = .error e →
      db.Initialize q =
        ([q.DropUser, q.DropRestaurants, q.CreateUser, q.CreateRestaurants], some e)) := by
  refine ⟨?_, ?_, ?_, ?_, ?_⟩
  · intro h1 h2 h3 h4
    simp [Database.Initialize, execList, h1, h2, h3, h4]
  · intro e h1
    simp [Database.Initialize, execList, h1]
  · intro e h1 h2
    simp [Database.Initialize, execList, h1, h2]
  · intro e h1 h2 h3
    simp [Database.Initialize, execList, h1, h2, h3]
  · intro e h1 h2 h3 h4
    simp [Database.Initialize, execList, h1, h2, h3, h4]

/-- Evaluates `initialize_fixed_order` on a driver failing exactly at the
drop-restaurants statement: the first two statements execute, the error is
returned, the last two never execute. -/
theorem initialize_fixed_order_witness :
    dbDropRestaurantsFails.Initialize qCat =
      (["DROP TABLE user", "DROP TABLE restaurants"], some "boom") :=
  (initialize_fixed_order dbDropRestaurantsFails qCat).2.2.1 "boom" rfl rfl

/-- Claim C5: in each of the three selects, a failing row scan aborts the
call with that error; the rows accumulated before the failing row are
discarded (the outcome is the bare error, carrying no partial list). -/
theorem select_scan_error_discards (db : Database) (q : String) :
    (∀ (pre : List User) (e : Err) (rest : List (ScanRes User)) (it : Option Err),
      db.qUsers q = .ok ⟨pre.map ScanRes.ok ++ ScanRes.err e :: rest, it⟩ →
      (db.SelectUsers q).outcome = Outcome.err e) ∧
    (∀ (pre : List RRow) (e : Err) (rest : List (ScanRes RRow)) (it : Option Err),
      db.qRestaurants q = .ok ⟨pre.map ScanRes.ok ++ ScanRes.err e :: rest, it⟩ →
      (db.SelectRestaurants q).outcome = Outcome.err e) ∧
    (∀ (pre : List JoinRow) (e : Err) (rest : List (ScanRes JoinRow)) (it : Option Err),
      db.qJoin q = .ok ⟨pre.map ScanRes.ok ++ ScanRes.err e :: rest, it⟩ →
      (db.SelectJoin q).outcome = Outcome.err e) := by
  refine ⟨?_, ?_, ?_⟩
  · intro pre e rest it h
    simp only [Database.SelectUsers, h]
    exact scanAll_first_err pre e rest
  · intro pre e rest it h
    simp only [Database.SelectRestaurants, h]
    have : (pre.map ScanRes.ok ++ ScanRes.err e :: rest).map (ScanRes.map RRow.toRestaurant) =
        (pre.map RRow.toRestaurant).map ScanRes.ok ++
          ScanRes.err e :: rest.map (ScanRes.map RRow.toRestaurant) := by
      simp [List.map_map, Function.comp, ScanRes.map]
    rw [this]
    exact scanAll_first_err _ e _
  · intro pre e rest it h
    simp only [Database.SelectJoin, h]
    exact scanAll_first_err pre e rest

/-- Evaluates `select_scan_error_discards` on a driver delivering one good
row and then a failing scan, for each of the three selects. -/
theorem select_scan_error_discards_witness :
    (dbScanErr.SelectUsers "q").outcome = Outcome.err "scan fail" ∧
    (dbScanErr.SelectRestaurants "q").outcome = Outcome.err "scan fail" ∧
    (dbScanErr.SelectJoin "q").outcome = Outcome.err "scan fail" :=
  ⟨(select_scan_error_discards dbScanErr "q").1 [u0] "scan fail" [] none rfl,
   (select_scan_error_discards dbScanErr "q").2.1 [r0] "scan fail" [] none rfl,
   (select_scan_error_discards dbScanErr "q").2.2 [j0] "scan fail" [] none rfl⟩

/-- Claim C8: whenever the query of one of the three selects succeeds, the
row cursor it opened is released (`defer rows.Close()`) on every exit path
— normal return, early return on a scan error, and panic-driven unwinding
alike, the cursor being arbitrary here. -/
theorem select_cursor_released (db : Database) (q : String) :
    (∀ c, db.qUsers q = .ok c → (db.SelectUsers q).closed = true) ∧
    (∀ c, db.qRestaurants q = .ok c → (db.SelectRestaurants q).closed = true) ∧
    (∀ c, db.qJoin q = .ok c → (db.SelectJoin q).closed = true) := by
  refine ⟨?_, ?_, ?_⟩
  · intro c h
    simp [Database.SelectUsers, h]
  · intro c h
    simp [Database.SelectRestaurants, h]
  · intro c h
    simp [Database.SelectJoin, h]

/-- Evaluates `select_cursor_released` on drivers exercising a normal
return, a scan-error return and a panicking scan. -/
theorem select_cursor_released_witness :
    (dbAllOk.SelectUsers "q").closed = true ∧
    (dbScanErr.SelectRestaurants "q").closed = true ∧
    (Database.SelectJoin { dbAllOk with
        qJoin := fun _ => .ok ⟨[ScanRes.panicked], none⟩ } "q").closed = true :=
  ⟨(select_cursor_released dbAllOk "q").1 (Cursor.ofList []) rfl,
   (select_cursor_released dbScanErr "q").2.1 ⟨[ScanRes.ok r0, ScanRes.err "scan fail"], none⟩ rfl,
   (select_cursor_released { dbAllOk with qJoin := fun _ => .ok ⟨[ScanRes.panicked], none⟩ } "q").2.2
     ⟨[ScanRes.panicked], none⟩ rfl⟩

/-- Claim C10 (implicit): none of the three selects consults the cursor's
terminal error after the row loop: when iteration stops because of a
cursor error after k successfully scanned rows, the call returns those k
records with no error, indistinguishable from a complete result. -/
theorem select_iteration_error_dropped (db : Database) (q : String) :
    (∀ (us : List User) (e : Err),
      db.qUsers q = .ok ⟨us.map ScanRes.ok, some e⟩ →
      (db.SelectUsers q).outcome = Outcome.ok us) ∧
    (∀ (rrs : List RRow) (e : Err),
      db.qRestaurants q = .ok ⟨rrs.map ScanRes.ok, some e⟩ →
      (db.SelectRestaurants q).outcome = Outcome.ok (rrs.map RRow.toRestaurant)) ∧
    (∀ (js : List JoinRow) (e : Err),
      db.qJoin q = .ok ⟨js.map ScanRes.ok, some e⟩ →
      (db.SelectJoin q).outcome = Outcome.ok js) := by
  refine ⟨?_, ?_, ?_⟩
  · intro us e h
    simp only [Database.SelectUsers, h]
    exact scanAll_map_ok us
  · intro rrs e h
    simp only [Database.SelectRestaurants, h]
    have : (rrs.map ScanRes.ok).map (ScanRes.map RRow.toRestaurant) =
        (rrs.map RRow.toRestaurant).map ScanRes.ok := by
      simp [List.map_map, Function.comp, ScanRes.map]
    rw [this]
    exact scanAll_map_ok _
  · intro js e h
    simp only [Database.SelectJoin, h]
    exact scanAll_map_ok js

/-- Evaluates `select_iteration_error_dropped` on a driver whose cursors
stop with an iteration error after one good row: each select returns that
row with no error. -/
theorem select_iteration_error_dropped_witness :
    (dbIterErr.SelectUsers "q").outcome = Outcome.ok [u0] ∧
    (dbIterErr.SelectRestaurants "q").outcome = Outcome.ok [RRow.toRestaurant r0] ∧
    (dbIterErr.SelectJoin "q").outcome = Outcome.ok [j0] :=
  ⟨(select_iteration_error_dropped dbIterErr "q").1 [u0] "iteration fail" rfl,
   (select_iteration_error_dropped dbIterErr "q").2.1 [r0] "iteration fail" rfl,
   (select_iteration_error_dropped dbIterErr "q").2.2 [j0] "iteration fail" rfl⟩

/-- The driver executing statements with the spec-modelled `specExec`. -/
def specDb : Database :=
  { dbAllOk with exec := specExec, prepare := specExec }

/-- The catalog loaded from an empty YAML mapping: all nine entries are the
empty string. -/
def qEmptyCat : Queries := ⟨"", "", "", "", "", "", "", "", ""⟩

/-- Claim C6: catalog loading never fails because of a missing key — every
parsed catalog file loads successfully, each of the nine entries absent
from the file is the empty string, and executing such an empty entry fails
with a driver-level SQL error only at the point of use (here: `Initialize`
executing a missing drop-user entry). -/
theorem loadQueries_defers_missing_keys (m : List (String × String)) :
    (∃ q, LoadQueries (.parsed m) = .ok q) ∧
    (∀ q, LoadQueries (.parsed m) = .ok q →
      ((m.lookup "drop_user" = none → q.DropUser = "") ∧
       (m.lookup "drop_restaurants" = none → q.DropRestaurants = "") ∧
       (m.lookup "create_user" = none → q.CreateUser = "") ∧
       (m.lookup "create_restaurants" = none → q.CreateRestaurants = "") ∧
       (m.lookup "insert_user" = none → q.InsertUser = "") ∧
       (m.lookup "insert_restaurant" = none → q.InsertRestaurant = "") ∧
       (m.lookup "select_users" = none → q.SelectUsers = "") ∧
       (m.lookup "select_restaurants" = none → q.SelectRestaurants = "") ∧
       (m.lookup "select_join" = none → q.SelectJoin = ""))) ∧
    (∀ q, LoadQueries (.parsed m) = .ok q → m.lookup "drop_user" = none →
      specDb.Initialize q = ([""], some "SQL syntax error: empty statement")) := by
  refine ⟨⟨_, rfl⟩, ?_, ?_⟩
  · intro q hq
    simp only [LoadQueries, Except.ok.injEq] at hq
    subst hq
    refine ⟨?_, ?_, ?_, ?_, ?_, ?_, ?_, ?_, ?_⟩ <;>
      · intro hk
        simp [yamlField, hk]
  · intro q hq hk
    simp only [LoadQueries, Except.ok.injEq] at hq
    subst hq
    simp [Database.Initialize, execList, specDb, specExec, yamlField, hk]

/-- Evaluates `loadQueries_defers_missing_keys` on the empty catalog file:
load succeeds with all entries empty, and initialize fails at its first
statement with the driver's syntax error. -/
theorem loadQueries_defers_missing_keys_witness :
    LoadQueries (.parsed []) = .ok qEmptyCat ∧
    specDb.Initialize qEmptyCat = ([""], some "SQL syntax error: empty statement") :=
  ⟨rfl, (loadQueries_defers_missing_keys []).2.2 qEmptyCat rfl rfl⟩

/-- The insert-user SQL of the spec's §8 scenario. -/
def specInsertUserSQL : String :=
  "INSERT INTO user(name,lastname,password,email,phone) VALUES(?,?,?,?,?)"

/-- Claim C7: insert-then-select round trip — the sample user carries no id
(`ID = 0`), inserting it through `InsertUser` into a freshly initialized
store succeeds, and `SelectUsers` then returns exactly one record whose id
is 1 (assigned by the store) and whose name, lastname, email and phone
equal the inserted values. -/
theorem insert_then_select_roundtrip :
    sampleUser.ID = 0 ∧
    (Store.empty.driver.InsertUser sampleUser specInsertUserSQL).1 = .ok () ∧
    ∃ st, Store.execInsertUser Store.empty (userBindArgs sampleUser) = .ok st ∧
      (st.driver.SelectUsers "SELECT * FROM user").outcome =
        Outcome.ok [{ ID := 1, Name := "lorem", Lastname := "lorem", Password := "lorem"
                      Email := "lorem@example.com", Phone := "+88888888888" }] :=
  ⟨rfl, rfl, _, rfl, rfl⟩

/-- The environment whose catalog file is missing. -/
def envMissing : MainEnv := ⟨.ok dbAllOk, .missing⟩

/-- Claim C9: when the catalog file is missing, no driver call is ever
issued in the run, and if the connection opened, the load step fails with
the configuration error and the run aborts there, no later step
executing. -/
theorem missing_catalog_no_db_ops (env : MainEnv) (hfile : env.file = .missing) :
    (mainRun env).dbOps = [] ∧
    (∀ db, env.openRes = .ok db →
      (∃ e, LoadQueries env.file = .error e) ∧
      mainRun env = ⟨[.openConn, .loadCatalog], some .loadCatalog, "", []⟩) := by
  constructor
  · cases hop : env.openRes with
    | error e => simp [mainRun, hop]
    | ok db => simp [mainRun, hop, hfile, LoadQueries]
  · intro db hop
    refine ⟨⟨"read error: no such file", by simp [hfile, LoadQueries]⟩, ?_⟩
    simp [mainRun, hop, hfile, LoadQueries]

/-- Evaluates `missing_catalog_no_db_ops` on a run with a working
connection and a missing catalog file. -/
theorem missing_catalog_no_db_ops_witness :
    (mainRun envMissing).dbOps = [] ∧
    mainRun envMissing = ⟨[.openConn, .loadCatalog], some .loadCatalog, "", []⟩ :=
  ⟨(missing_catalog_no_db_ops envMissing rfl).1,
   ((missing_catalog_no_db_ops envMissing rfl).2 dbAllOk rfl).2⟩

/-- A driver on which the select-users query fails and everything else
succeeds. -/
def dbC1 : Database :=
  { dbAllOk with qUsers := fun _ => .error "select users failed" }

/-- The run exercising `dbC1` with an empty parsed catalog. -/
def envC1 : MainEnv := ⟨.ok dbC1, .parsed []⟩

/-- Counterexample to claim C1 as stated: in the run `envC1` the
select-and-print-users step fails (its query returns an error), yet the
process does not abort — both remaining steps still execute and the run
terminates normally. -/
theorem main_select_failure_not_fatal :
    (dbC1.SelectUsers "").outcome = Outcome.err "select users failed" ∧
    (mainRun envC1).fatalAt = none ∧
    (mainRun envC1).steps = allSteps := by
  refine ⟨rfl, ?_, ?_⟩ <;> rfl

/-- Claim C1 (amended): a failure of any of the first five steps (open
connection, load catalog, initialize schema, insert sample user, insert
sample restaurant) aborts the run at that step, no later step executing;
the three select steps' errors are discarded, so a run whose first five
steps succeed executes all eight steps and terminates normally even if
selects fail (only a scan panic aborts a select step). -/
theorem main_abort_policy (env : MainEnv) :
    (∀ e, env.openRes = .error e →
      mainRun env = ⟨[.openConn], some .openConn, "", []⟩) ∧
    (∀ db e, env.openRes = .ok db → LoadQueries env.file = .error e →
      mainRun env = ⟨[.openConn, .loadCatalog], some .loadCatalog, "", []⟩) ∧
    (∀ db q e, env.openRes = .ok db → LoadQueries env.file = .ok q →
      (db.Initialize q).2 = some e →
      (mainRun env).steps = [.openConn, .loadCatalog, .initSchema] ∧
      (mainRun env).fatalAt = some .initSchema) ∧
    (∀ db q e, env.openRes = .ok db → LoadQueries env.file = .ok q →
      (db.Initialize q).2 = none →
      (db.InsertUser sampleUser q.InsertUser).1 = .error e →
      (mainRun env).steps = [.openConn, .loadCatalog, .initSchema, .insertUser] ∧
      (mainRun env).fatalAt = some .insertUser) ∧
    (∀ db q e, env.openRes = .ok db → LoadQueries env.file = .ok q →
      (db.Initialize q).2 = none →
      (db.InsertUser sampleUser q.InsertUser).1 = .ok () →
      (db.InsertRestaurant sampleRestaurant q.InsertRestaurant).1 = .error e →
      (mainRun env).steps =
        [.openConn, .loadCatalog, .initSchema, .insertUser, .insertRestaurant] ∧
      (mainRun env).fatalAt = some .insertRestaurant) ∧
    (∀ db q, env.openRes = .ok db → LoadQueries env.file = .ok q →
      (db.Initialize q).2 = none →
      (db.InsertUser sampleUser q.InsertUser).1 = .ok () →
      (db.InsertRestaurant sampleRestaurant q.InsertRestaurant).1 = .ok () →
      (db.SelectUsers q.SelectUsers).outcome ≠ Outcome.panicked →
      (db.SelectRestaurants q.SelectRestaurants).outcome ≠ Outcome.panicked →
      (db.SelectJoin q.SelectJoin).outcome ≠ Outcome.panicked →
      (mainRun env).steps = allSteps ∧ (mainRun env).fatalAt = none) := by
  refine ⟨?_, ?_, ?_, ?_, ?_, ?_⟩
  · intro e hop
    simp [mainRun, hop]
  · intro db e hop hload
    simp [mainRun, hop, hload]
  · intro db q e hop hload hinit
    constructor <;> simp [mainRun, hop, hload, hinit]
  · intro db q e hop hload hinit hiu
    constructor <;> simp [mainRun, hop, hload, hinit, hiu]
  · intro db q e hop hload hinit hiu hir
    constructor <;> simp [mainRun, hop, hload, hinit, hiu, hir]
  · intro db q hop hload hinit hiu hir hsu hsr hsj
    constructor <;>
      simp [mainRun, selectsPhase, hop, hload, hinit, hiu, hir, hsu, hsr, hsj, allSteps]

/-- The run on which every step succeeds. -/
def envAllOk : MainEnv := ⟨.ok dbAllOk, .parsed []⟩

/-- Evaluates `main_abort_policy` on the all-success run: all eight steps
execute and the run terminates normally. -/
theorem main_abort_policy_witness :
    (mainRun envAllOk).steps = allSteps ∧ (mainRun envAllOk).fatalAt = none :=
  (main_abort_policy envAllOk).2.2.2.2.2 dbAllOk qEmptyCat rfl rfl rfl rfl rfl
    (by decide) (by decide) (by decide)

/-! ## Output formatting (claim C2) -/

theorem printfUser_spec : printfUser = fun u => specUserLine u ++ "\n" := by
  funext u
  simp [printfUser, specUserLine, specUserFields, String.intercalate,
    String.intercalate.go, String.append_assoc]

theorem printfRestaurant_spec : printfRestaurant = fun r => specRestaurantLine r ++ "\n" := by
  funext r
  simp [printfRestaurant, specRestaurantLine, specRestaurantFields, String.intercalate,
    String.intercalate.go, String.append_assoc]

theorem printfJoin_spec : printfJoin = fun j => specJoinLine j ++ "\n" := by
  funext j
  simp only [printfJoin, specJoinLine, specJoinFields, String.intercalate,
    String.intercalate.go, String.append_assoc]
  rfl

theorem map_scanres_ok {α β : Type} (f : α → β) (l : List α) :
    (l.map ScanRes.ok).map (ScanRes.map f) = (l.map f).map ScanRes.ok := by
  simp [List.map_map, Function.comp, ScanRes.map]

/-- Claim C2: in a run whose selects succeed, the orchestration writes
exactly one newline-terminated line per selected user, restaurant and
joined row, the printed fields appearing in the §4.4 order (`specUserLine`,
`specRestaurantLine`, `specJoinLine`). -/
theorem orchestration_one_line_per_record (env : MainEnv) (db : Database) (q : Queries)
    (us : List User) (rrs : List RRow) (js : List JoinRow)
    (hop : env.openRes = .ok db) (hload : LoadQueries env.file = .ok q)
    (hinit : (db.Initialize q).2 = none)
    (hiu : (db.InsertUser sampleUser q.InsertUser).1 = .ok ())
    (hir : (db.InsertRestaurant sampleRestaurant q.InsertRestaurant).1 = .ok ())
    (hsu : db.qUsers q.SelectUsers = .ok (Cursor.ofList us))
    (hsr : db.qRestaurants q.SelectRestaurants = .ok (Cursor.ofList rrs))
    (hsj : db.qJoin q.SelectJoin = .ok (Cursor.ofList js)) :
    (mainRun env).output =
      String.join (us.map fun u => specUserLine u ++ "\n") ++
      (String.join ((rrs.map RRow.toRestaurant).map fun r => specRestaurantLine r ++ "\n") ++
       String.join (js.map fun j => specJoinLine j ++ "\n")) := by
  have hu : (db.SelectUsers q.SelectUsers).outcome = Outcome.ok us := by
    simp only [Database.SelectUsers, hsu, Cursor.ofList]
    exact scanAll_map_ok us
  have hr : (db.SelectRestaurants q.SelectRestaurants).outcome =
      Outcome.ok (rrs.map RRow.toRestaurant) := by
    simp only [Database.SelectRestaurants, hsr, Cursor.ofList]
    rw [map_scanres_ok]
    exact scanAll_map_ok _
  have hj : (db.SelectJoin q.SelectJoin).outcome = Outcome.ok js := by
    simp only [Database.SelectJoin, hsj, Cursor.ofList]
    exact scanAll_map_ok js
  simp [mainRun, selectsPhase, hop, hload, hinit, hiu, hir, hu, hr, hj, sliceOf,
    printLoop, printfUser_spec, printfRestaurant_spec, printfJoin_spec, String.append_assoc]

/-- The driver whose selects return one concrete record each. -/
def dbC2 : Database :=
  { dbAllOk with
    qUsers := fun _ => .ok (Cursor.ofList [u0])
    qRestaurants := fun _ => .ok (Cursor.ofList [r0])
    qJoin := fun _ => .ok (Cursor.ofList [j0]) }

/-- The run exercising `dbC2` with an empty parsed catalog. -/
def envC2 : MainEnv := ⟨.ok dbC2, .parsed []⟩

/-- Evaluates `orchestration_one_line_per_record` on a run returning one
user, one restaurant and one joined row. -/
theorem orchestration_one_line_per_record_witness :
    (mainRun envC2).output =
      String.join ([u0].map fun u => specUserLine u ++ "\n") ++
      (String.join (([r0].map RRow.toRestaurant).map fun r => specRestaurantLine r ++ "\n") ++
       String.join ([j0].map fun j => specJoinLine j ++ "\n")) :=
  orchestration_one_line_per_record envC2 dbC2 qEmptyCat [u0] [r0] [j0]
    rfl rfl rfl rfl rfl rfl rfl rfl

end DbModule
